import Mathlib

/-!
Verification development for the osm-fieldwork data-extract module
(src/osm_fieldwork/make_data_extract.py).

The Python module is shallowly embedded below.  Strings are modelled with
Lean strings; Python slices and dict updates are modelled by explicit
helper functions on the underlying character lists; the stateful network
and database collaborators are modelled as explicit function-valued
parameters; the unbounded poll loop is modelled with an explicit fuel
argument, where exhausting every fuel value corresponds to divergence.
Numeric coordinate values that the Python code only ever formats back
into text are carried as their rendered text.
-/

/-- The single-quote character as a one-character string.  Used to build
the SQL fragments that quote tag names. -/
def sqc : String := "\x27"

/-- Python slice s[:-n] (all characters but the last n). -/
def pyDropRight (n : Nat) (s : String) : String :=
  String.mk (s.data.take (s.data.length - n))

/-- Python slice s[-n:] (the last n characters). -/
def pyTakeRight (n : Nat) (s : String) : String :=
  String.mk (s.data.drop (s.data.length - n))

/-- Python slice s[16:-1], as used on the EWKT centroid column value. -/
def pySlice16ToNeg1 (s : String) : String :=
  String.mk ((s.data.drop 16).take (s.data.length - 1 - 16))

/-- Helper for pySplitSpace: accumulates the current token in reverse. -/
def pySplitSpaceAux : List Char → List Char → List String
  | [], acc => [String.mk acc.reverse]
  | c :: cs, acc =>
    if c = ' ' then String.mk acc.reverse :: pySplitSpaceAux cs []
    else pySplitSpaceAux cs (c :: acc)

/-- Python str.split(" "): split on every single space, keeping empty
tokens, and returning one empty token for the empty string. -/
def pySplitSpace (s : String) : List String :=
  pySplitSpaceAux s.data []

/-- Does the pattern occur at the head of the list? -/
def startsMatch : List Char → List Char → Bool
  | [], _ => true
  | _ :: _, [] => false
  | a :: as, b :: bs => a == b && startsMatch as bs

/-- Helper for pyFind: index of the first occurrence of the pattern in
the list, counting from i, or -1 when absent. -/
def pyFindAux (sub : List Char) : List Char → Nat → Int
  | [], i => if startsMatch sub [] then (i : Int) else -1
  | c :: cs, i => if startsMatch sub (c :: cs) then (i : Int) else pyFindAux sub cs (i + 1)

/-- Python str.find: lowest index at which sub occurs in s, else -1. -/
def pyFind (s sub : String) : Int :=
  pyFindAux sub.data s.data 0

/-- Helper for pyReplace: replaces every non-overlapping occurrence of
sub (assumed non-empty at the call sites) by rep, left to right. -/
def pyReplaceList (sub rep : List Char) : List Char → List Char
  | [] => []
  | c :: cs =>
    if h : sub ≠ [] ∧ startsMatch sub (c :: cs) then
      rep ++ pyReplaceList sub rep ((c :: cs).drop sub.length)
    else
      c :: pyReplaceList sub rep cs
termination_by l => l.length
decreasing_by
  · simp only [List.length_drop]
    exact Nat.sub_lt (Nat.succ_pos _) (List.length_pos.mpr h.1)
  · simp

/-- Python str.replace on whole strings. -/
def pyReplace (s sub rep : String) : String :=
  String.mk (pyReplaceList sub.data rep.data s.data)

/-- Python error values that the embedded code can raise. -/
inductive PyErr where
  | attributeError
  | connectionError
  | indexError
  | keyError
  | typeError
  | nameError
deriving DecidableEq, Repr

/-- A loaded category schema, the fields of the YAML document consumed by
createJson and createSQL: the source table list (data from-field), the
optional selected-tag list (select.tags, as pairs of output name and
source expression), and the required-tag predicate pairs
(where.tags, first element). -/
structure Schema where
  fromTables : List String
  selectTags : Option (List (String × String))
  whereTags : List (String × String)
deriving DecidableEq, Repr

/-- Innermost level of the remote filter document. -/
structure JoinOr where
  join_or : List (String × List String)
deriving DecidableEq, Repr

/-- Middle level of the remote filter document. -/
structure AllGeometry where
  all_geometry : JoinOr
deriving DecidableEq, Repr

/-- The filters member of the remote filter document. -/
structure TagFilters where
  tags : AllGeometry
deriving DecidableEq, Repr

/-- The JSON filter document built by createJson, with the boundary
geometry carried at an arbitrary type.  The Python function returns the
json.dumps serialization of exactly this document. -/
structure FilterDoc (β : Type) where
  geometry : β
  filters : TagFilters
  geometryType : List String
  centroid : String

/-- The columns dict of createJson: each where-tag whose predicate is
the text not null is mapped to an empty list, in iteration order. -/
def joinOrColumns : List (String × String) → List (String × List String)
  | [] => []
  | p :: rest =>
    if p.2 = "not null" then (p.1, []) :: joinOrColumns rest
    else joinOrColumns rest

/-- The tables list of createJson: nodes, ways_poly and ways_line are
translated to point, polygon and linestring; relations is skipped, and
any other table name falls through every branch and is also skipped. -/
def geometryTypeTables : List String → List String
  | [] => []
  | t :: rest =>
    if t = "nodes" then "point" :: geometryTypeTables rest
    else if t = "ways_poly" then "polygon" :: geometryTypeTables rest
    else if t = "ways_line" then "linestring" :: geometryTypeTables rest
    else geometryTypeTables rest

/-- DatabaseAccess.createJson (lines 92-121): builds the filter document
sent to the raw-data API. -/
def createJson {β : Type} (schema : Schema) (boundary : β) : FilterDoc β :=
  ⟨boundary, ⟨⟨⟨joinOrColumns schema.whereTags⟩⟩⟩,
    geometryTypeTables schema.fromTables, "true"⟩

/-- Modelled from the spec (vocabulary of section 4.1): the table-name
translation nodes to point, ways_poly to polygon, ways_line to
linestring, with relation tables dropped.  Used only to compare the
source-derived geometryTypeTables against the specified mapping. -/
def tableToGeomType (t : String) : Option String :=
  if t = "nodes" then some "point"
  else if t = "ways_poly" then some "polygon"
  else if t = "ways_line" then some "linestring"
  else none

/-- The SELECT clause built by createSQL for one table: with selected
tags each pair contributes one aliased column before the id and centroid
columns, otherwise the raw tags column is also projected. -/
def selectFragment : Option (List (String × String)) → String
  | some pairs =>
    pairs.foldl (fun acc p => acc ++ (" " ++ p.2 ++ " AS " ++ p.1 ++ ", ")) "SELECT "
      ++ "osm_id AS id, ST_AsEWKT(ST_Centroid(geom)) "
  | none => "SELECT " ++ "osm_id AS id, ST_AsEWKT(ST_Centroid(geom)), tags "

/-- One statement of DatabaseAccess.createSQL (lines 123-151): the query
is built by appending the FROM clause, then unconditionally the text
WHERE, then one disjunct per not-null tag, and finally the Python slice
query[:-4] cuts the last four characters. -/
def sqlForTable (schema : Schema) (table : String) : String :=
  let q := selectFragment schema.selectTags
  let q := q ++ (" FROM " ++ table ++ " ")
  let q := q ++ " WHERE "
  let q := schema.whereTags.foldl
    (fun acc p =>
      if p.2 = "not null" then
        acc ++ ("tags->>" ++ sqc ++ p.1 ++ sqc ++ " IS NOT NULL OR ")
      else acc) q
  pyDropRight 4 q

/-- DatabaseAccess.createSQL: one statement per source table. -/
def createSQL (schema : Schema) : List String :=
  schema.fromTables.map (sqlForTable schema)

/-- A geometry value: a point or a polygon ring, with coordinates at an
arbitrary type. -/
inductive Geometry (α : Type) where
  | point (x y : α)
  | polygonG (ring : List (α × α))
deriving DecidableEq, Repr

/-- Whether a geometry is a point. -/
def Geometry.isPoint {α : Type} : Geometry α → Bool
  | .point _ _ => true
  | _ => false

/-- A Python property value: a string, or None. -/
abbrev Val := Option String

/-- A produced feature: a geometry plus a property mapping. -/
structure RawFeature (α : Type) where
  geometry : Geometry α
  properties : List (String × Val)
deriving DecidableEq, Repr

/-- Python dict assignment d[k] = v on an insertion-ordered mapping:
overwrite in place when the key exists, append otherwise. -/
def dictSet (d : List (String × Val)) (k : String) (v : Val) : List (String × Val) :=
  if d.any (fun p => p.1 = k) then
    d.map (fun p => if p.1 = k then (k, v) else p)
  else d ++ [(k, v)]

/-- Python key-in-dict test. -/
def hasKey (d : List (String × Val)) (k : String) : Bool :=
  d.any (fun p => p.1 = k)

/-- Python dict subscript read, defaulting to None for a missing key
(every modelled read is guarded by hasKey). -/
def dictGetD (d : List (String × Val)) (k : String) : Val :=
  match d.find? (fun p => p.1 = k) with
  | some p => p.2
  | none => none

/-- One result row of the local SQL query, in the column order of the
statement built without selected tags: osm_id AS id, the EWKT centroid
text, and the tags mapping (items 0, 1 and 2 of the Python row). -/
structure Row where
  osm_id : String
  centroidEwkt : String
  tags : List (String × Val)
deriving DecidableEq, Repr

/-- The per-row body of DatabaseAccess.queryLocal (lines 171-182): parse
the centroid from item 1 with the slice [16:-1] and a split on spaces,
build a Point from the first two tokens (an IndexError aborts the query
when fewer than two tokens result; the numeric float conversion of the
token text is carried as the text itself), then set the id entry of the
tags to item 1 and synthesize title and label from the name entry. -/
def rowToFeature (item : Row) : Except PyErr (RawFeature String) :=
  let gps := pySplitSpace (pySlice16ToNeg1 item.centroidEwkt)
  match gps with
  | g0 :: g1 :: _ =>
    let poi := Geometry.point g0 g1
    let tags := dictSet item.tags "id" (some item.centroidEwkt)
    let tags :=
      if hasKey tags "name" then
        dictSet (dictSet tags "title" (dictGetD tags "name")) "label" (dictGetD tags "name")
      else
        dictSet (dictSet tags "title" none) "label" none
    .ok ⟨poi, tags⟩
  | _ => .error .indexError

/-- Prepends an already-built feature to the outcome of the remaining
rows, keeping the first raised error. -/
def consFeature (f : RawFeature String) :
    Except PyErr (List (RawFeature String)) → Except PyErr (List (RawFeature String))
  | .error e => .error e
  | .ok fs => .ok (f :: fs)

/-- The result loop of queryLocal: features are appended in row order;
the first raising row aborts the whole query. -/
def rowsToFeatures : List Row → Except PyErr (List (RawFeature String))
  | [] => .ok []
  | r :: rs =>
    match rowToFeature r with
    | .error e => .error e
    | .ok f => consFeature f (rowsToFeatures rs)

/-- A database session: maps an executed statement to its fetched rows.
The CREATE TEMP VIEW statements mutate session state in the source; that
state is abstracted into this function. -/
abbrev LocalDb := String → List Row

/-- The ways_view creation statement of queryLocal (line 154). -/
def waysViewSql (wkt : String) : String :=
  "DROP VIEW IF EXISTS ways_view;CREATE TEMP VIEW ways_view AS SELECT * FROM ways_poly WHERE ST_CONTAINS(ST_GeomFromEWKT("
    ++ sqc ++ "SRID=4326;" ++ wkt ++ sqc ++ "), geom)"

/-- The nodes_view creation statement of queryLocal (line 156). -/
def nodesViewSql (wkt : String) : String :=
  "DROP VIEW IF EXISTS nodes_view;CREATE TEMP VIEW nodes_view AS SELECT * FROM nodes WHERE ST_CONTAINS(ST_GeomFromEWKT("
    ++ sqc ++ "SRID=4326;" ++ wkt ++ sqc ++ "), geom)"

/-- The query rewriting of queryLocal (lines 162-165): point the
statement at the filtered view, first applicable view only; note the
source tests find(...) > 0, not >= 0. -/
def rewriteQuery (query : String) : String :=
  if pyFind query " ways_poly " > 0 then pyReplace query "ways_poly" "ways_view"
  else if pyFind query " nodes " > 0 then pyReplace query "nodes" "nodes_view"
  else query

/-- DatabaseAccess.queryLocal (lines 153-183).  With no open cursor the
subscripted None raises AttributeError; otherwise the two view creation
statements are executed, the rewritten query is executed, and the rows
are mapped to features. -/
def queryLocal (cursor : Option LocalDb) (query : String) (wkt : String) :
    Except PyErr (List (RawFeature String)) :=
  match cursor with
  | none => .error .attributeError
  | some db =>
    let _ := db (waysViewSql wkt)
    let _ := db (nodesViewSql wkt)
    rowsToFeatures (db (rewriteQuery query))

/-- One JSON response of the task status endpoint: the status text, and
the download_url inside the result member when the server sent one. -/
structure StatusResp where
  status : String
  result : Option String
deriving DecidableEq, Repr

/-- The remote snapshot server as seen through the persistent session:
the POST of a filter document returns a task id, each numbered GET of
the status endpoint of a task returns a status response, and the GET of
a download url returns the zip archive as a list of named entries. -/
structure RemoteServer (α : Type) where
  post : α → String
  status : String → Nat → StatusResp
  download : String → List (String × List Nat)

/-- Observable outcome of one queryRemote run: how many times the status
endpoint was polled, how many unit sleeps were performed (one unit after
each PENDING response, from time.sleep(1)), and the bytes returned. -/
structure RemoteTrace where
  polls : Nat
  sleepUnits : Nat
  bytes : List Nat
deriving DecidableEq, Repr

/-- The while True polling loop of queryRemote (lines 190-196), with an
explicit fuel argument: i counts the GETs already issued, s the unit
sleeps already performed.  A PENDING status sleeps one unit and retries;
a SUCCESS status leaves the loop with the final response; any other
status retries at once without sleeping.  Exhausted fuel returns none;
the loop diverges exactly when every fuel value returns none. -/
def pollLoop (seq : Nat → StatusResp) : Nat → Nat → Nat → Option (Nat × Nat × StatusResp)
  | 0, _, _ => none
  | fuel + 1, i, s =>
    if (seq i).status = "PENDING" then pollLoop seq fuel (i + 1) (s + 1)
    else if (seq i).status = "SUCCESS" then some (i + 1, s, seq i)
    else pollLoop seq fuel (i + 1) s

/-- Python zipfile read of a named entry: the content of the first entry
with that name, or a KeyError when absent. -/
def lookupEntry (name : String) (entries : List (String × List Nat)) : Option (List Nat) :=
  match entries.find? (fun p => p.1 = name) with
  | some p => some p.2
  | none => none

/-- DatabaseAccess.queryRemote (lines 185-203): POST the filter document,
poll the status endpoint until SUCCESS, read result.download_url from
the final response (a missing result member means subscripting None and
raises), download the zip and return the raw bytes of the entry named
Export.geojson (absent entry: KeyError from zipfile). -/
def queryRemote {α : Type} (server : RemoteServer α) (query : α) (fuel : Nat) :
    Option (Except PyErr RemoteTrace) :=
  let tid := server.post query
  match pollLoop (server.status tid) fuel 0 0 with
  | none => none
  | some (polls, sleeps, finalResp) =>
    match finalResp.result with
    | none => some (.error .typeError)
    | some url =>
      match lookupEntry "Export.geojson" (server.download url) with
      | none => some (.error .keyError)
      | some bs => some (.ok ⟨polls, sleeps, bs⟩)

/-- The collection built by PostgresClient.getFeatures before cleaning:
the local branch yields a list of features, the remote branch yields the
raw bytes of the downloaded GeoJSON document. -/
inductive Collection where
  | features (fs : List (RawFeature String))
  | rawBytes (bs : List Nat)
deriving DecidableEq, Repr

/-- The local statement loop of getFeatures (lines 231-232): result is
rebound on every iteration, so earlier results are discarded; the
accumulator models the binding of result before the loop body runs
(none while still unbound). -/
def runQueries (db : LocalDb) (wkt : String) :
    List String → Option (List (RawFeature String)) →
    Except PyErr (Option (List (RawFeature String)))
  | [], acc => .ok acc
  | q :: rest, _ =>
    match queryLocal (some db) q wkt with
    | .error e => .error e
    | .ok fs => runQueries db wkt rest (some fs)

/-- The remote branch of getFeatures (lines 235-236): build the filter
document and run the snapshot protocol. -/
def remoteExtract {β : Type} (server : RemoteServer (FilterDoc β)) (schema : Schema)
    (poly : β) (fuel : Nat) : Option (Except PyErr Collection) :=
  match queryRemote server (createJson schema poly) fuel with
  | none => none
  | some (.error e) => some (.error e)
  | some (.ok tr) => some (.ok (.rawBytes tr.bytes))

/-- PostgresClient.getFeatures (lines 228-236), up to the tag-cleaning
and file-writing collaborators: with an open session, run every built
statement and collect only the last result (an empty statement list
leaves result unbound, a NameError); with no session, fall through to
the remote branch.  The boundary is carried both as the parsed polygon
poly and as its WKT rendering. -/
def getFeatures {β : Type} (dbshell : Option LocalDb) (server : RemoteServer (FilterDoc β))
    (schema : Schema) (poly : β) (wkt : String) (fuel : Nat) :
    Option (Except PyErr Collection) :=
  match dbshell with
  | some db =>
    match runQueries db wkt (createSQL schema) none with
    | .error e => some (.error e)
    | .ok none => some (.error .nameError)
    | .ok (some fs) => some (.ok (.features fs))
  | none => remoteExtract server schema poly fuel

/-- One vertex of the boundary exterior ring as the Overpass client sees
it: x is the first (longitude) coordinate of the GeoJSON position and y
the second (latitude), both carried as their rendered decimal text. -/
structure Coord where
  x : String
  y : String
deriving DecidableEq, Repr

/-- The boundary flattening loop of OverpassClient.getFeatures (lines
269-274) followed by the trailing slice poly[:-1].  The source unpacks
coords.xy as lat, lon — so the variable named lat holds the x array and
the variable named lon holds the y array — and the loop appends the pair
lon[index] lat[index], which is the y text then the x text. -/
def overpassPolyString (ring : List Coord) : String :=
  pyDropRight 1 (ring.foldl (fun acc c => acc ++ (c.y ++ " " ++ c.x ++ " ")) "")

/-- The Overpass QL query built at line 276. -/
def overpassQuery (ring : List Coord) : String :=
  "[out:json];way[\"building\"](poly:\"" ++ overpassPolyString ring
    ++ "\");(._;>;);out body geom;"

/-- Modelled from the spec sentence of section 4.4, amended to the order
the code emits: the exterior ring flattened into single space-separated
tokens with the latitude before the longitude in each pair and no
trailing separator. -/
def latFirstJoin : List Coord → String
  | [] => ""
  | [c] => c.y ++ " " ++ c.x
  | c :: rest => c.y ++ " " ++ c.x ++ " " ++ latFirstJoin rest

/-- One vertex of an Overpass way geometry, a lat and lon pair. -/
structure OverpassCoord where
  lat : ℚ
  lon : ℚ
deriving DecidableEq, Repr

/-- One way of an Overpass result: its vertex list and its tags. -/
structure OverpassWay where
  geometry : List OverpassCoord
  tags : List (String × Val)
deriving DecidableEq, Repr

/-- The per-way ring building loop (lines 280-285): each vertex is
turned into the pair lon, lat in that order. -/
def wayRing (w : OverpassWay) : List (ℚ × ℚ) :=
  w.geometry.map (fun c => (c.lon, c.lat))

/-- Consecutive edge pairs of a ring, closing the cycle back to the
first vertex, as shapely Polygon does with an unclosed input ring. -/
def ringEdges (ring : List (ℚ × ℚ)) : List ((ℚ × ℚ) × (ℚ × ℚ)) :=
  match ring with
  | [] => []
  | p :: rest => List.zip (p :: rest) (rest ++ [p])

/-- Models the external shapely.centroid call on a polygon built from
the ring (line 287): the area-weighted polygon centroid formula, with
degenerate zero-area rings mapped to the origin point.  Every result is
a point. -/
def polygonCentroid (ring : List (ℚ × ℚ)) : Geometry ℚ :=
  let es := ringEdges ring
  let a2 := es.foldl (fun acc e => acc + (e.1.1 * e.2.2 - e.2.1 * e.1.2)) 0
  let cx := es.foldl (fun acc e => acc + (e.1.1 + e.2.1) * (e.1.1 * e.2.2 - e.2.1 * e.1.2)) 0
  let cy := es.foldl (fun acc e => acc + (e.1.2 + e.2.2) * (e.1.1 * e.2.2 - e.2.1 * e.1.2)) 0
  if a2 = 0 then .point 0 0 else .point (cx / (3 * a2)) (cy / (3 * a2))

/-- The way-to-feature adapter of OverpassClient.getFeatures (lines
279-288): centroid point geometry, tags carried unchanged (no id, title
or label synthesis on this path). -/
def wayToFeature (w : OverpassWay) : RawFeature ℚ :=
  ⟨polygonCentroid (wayRing w), w.tags⟩

/-- The feature list built from an Overpass result. -/
def overpassFeatures (ways : List OverpassWay) : List (RawFeature ℚ) :=
  ways.map wayToFeature

/-- Fixture: a result row with distinct osm_id and centroid texts. -/
def row0 : Row := ⟨"123", "SRID=4326;POINT(1 2)", []⟩

/-- Fixture: the feature that queryLocal builds from row0. -/
def feat0 : RawFeature String :=
  ⟨Geometry.point "1" "2",
    [("id", some "SRID=4326;POINT(1 2)"), ("title", none), ("label", none)]⟩

/-- Fixture: a session returning row0 for every statement. -/
def db0 : LocalDb := fun _ => [row0]

/-- Fixture: a snapshot server answering PENDING twice and then SUCCESS
with a download url u holding a three-byte Export.geojson entry. -/
def srv1 : RemoteServer String :=
  ⟨fun _ => "t1",
   fun _ n => if n < 2 then ⟨"PENDING", none⟩ else ⟨"SUCCESS", some "u"⟩,
   fun u => if u = "u" then [("Export.geojson", [1, 2, 3])] else []⟩

/-- Fixture: a snapshot server whose task never reaches SUCCESS. -/
def srvFailed : RemoteServer String :=
  ⟨fun _ => "t2", fun _ _ => ⟨"FAILED", none⟩, fun _ => []⟩

/-- Fixture: an inert remote server for exercising the local branch. -/
def srvD : RemoteServer (FilterDoc String) :=
  ⟨fun _ => "t3", fun _ _ => ⟨"X", none⟩, fun _ => []⟩

/-- Fixture: a two-table schema with one required tag. -/
def schema2 : Schema := ⟨["nodes", "ways_poly"], none, [("building", "not null")]⟩

/-- Fixture: a triangular Overpass way. -/
def way0 : OverpassWay :=
  ⟨[⟨1, 2⟩, ⟨1, 3⟩, ⟨2, 3⟩], [("building", some "yes")]⟩

/-- The single statement that createSQL emits for a one-table schema
whose only required tag is amenity with the not null predicate, written
with the clause structure the construction produces. -/
def amenityStmt (sel : Option (List (String × String))) (table : String) : String :=
  ((selectFragment sel ++ (" FROM " ++ table ++ " ")) ++ " WHERE ")
    ++ ("tags->>" ++ sqc ++ "amenity" ++ sqc ++ " IS NOT NULL")

theorem strMkData (s : String) : String.mk s.data = s := rfl

theorem strExt {s t : String} (h : s.data = t.data) : s = t := String.ext h

theorem strAppendAssoc (s t u : String) : s ++ t ++ u = s ++ (t ++ u) := by
  apply strExt
  simp [String.data_append, List.append_assoc]

theorem pyDropRight_append (n : Nat) (s t : String) (h : t.data.length = n) :
    pyDropRight n (s ++ t) = s := by
  apply strExt
  show ((s ++ t).data.take ((s ++ t).data.length - n)) = s.data
  rw [String.data_append, List.length_append, h, Nat.add_sub_cancel]
  exact List.take_left s.data t.data

theorem pyTakeRight_append (n : Nat) (s t : String) (h : t.data.length = n) :
    pyTakeRight n (s ++ t) = t := by
  apply strExt
  show ((s ++ t).data.drop ((s ++ t).data.length - n)) = t.data
  rw [String.data_append, List.length_append, h, Nat.add_sub_cancel]
  exact List.drop_left s.data t.data

theorem joinOrColumns_spec (l : List (String × String)) :
    joinOrColumns l
      = (l.filter (fun p => p.2 == "not null")).map (fun p => (p.1, ([] : List String))) := by
  induction l with
  | nil => rfl
  | cons p rest ih =>
    by_cases h : p.2 = "not null" <;>
      simp [joinOrColumns, List.filter_cons, beq_iff_eq, h, ih]

theorem geometryTypeTables_spec (l : List String) :
    geometryTypeTables l = l.filterMap tableToGeomType := by
  induction l with
  | nil => rfl
  | cons t rest ih =>
    simp only [geometryTypeTables, List.filterMap_cons, tableToGeomType]
    by_cases h1 : t = "nodes"
    · simp [h1, ih]
    · by_cases h2 : t = "ways_poly"
      · simp [h1, h2, ih]
      · by_cases h3 : t = "ways_line"
        · simp [h1, h2, h3, ih]
        · simp [h1, h2, h3, ih]

/-- Claim C2: for every category schema, the filter document built for
the remote path has geometry equal to the boundary polygon, the join_or
member under filters.tags.all_geometry mapping each required tag whose
predicate is not null to an empty list, geometryType equal to the source
tables translated in order by nodes to point, ways_poly to polygon and
ways_line to linestring with relation tables dropped (in particular for
the tables nodes and relations it is the point entry only), and centroid
set to the value true. -/
theorem createJson_filter_document {β : Type} (s : Schema) (b : β) :
    (createJson s b).geometry = b
    ∧ (createJson s b).filters.tags.all_geometry.join_or
        = (s.whereTags.filter (fun p => p.2 == "not null")).map
            (fun p => (p.1, ([] : List String)))
    ∧ (createJson s b).geometryType = s.fromTables.filterMap tableToGeomType
    ∧ (createJson s b).centroid = "true"
    ∧ (createJson ⟨["nodes", "relations"], s.selectTags, s.whereTags⟩ b).geometryType
        = ["point"] := by
  refine ⟨rfl, joinOrColumns_spec s.whereTags, geometryTypeTables_spec s.fromTables, rfl, ?_⟩
  simp [createJson, geometryTypeTables]

theorem pyDropRight4_or (s : String) :
    pyDropRight 4 (s ++ ("tags->>" ++ sqc ++ "amenity" ++ sqc ++ " IS NOT NULL OR "))
      = s ++ ("tags->>" ++ sqc ++ "amenity" ++ sqc ++ " IS NOT NULL") := by
  have h : ("tags->>" ++ sqc ++ "amenity" ++ sqc ++ " IS NOT NULL OR ")
      = (("tags->>" ++ sqc ++ "amenity" ++ sqc ++ " IS NOT NULL") ++ " OR " : String) := by
    decide
  rw [h, ← strAppendAssoc]
  exact pyDropRight_append 4 _ " OR " (by decide)

/-- Claim C3: for every schema with exactly one source table and with
the single required tag amenity mapped to not null, createSQL produces
exactly one statement; that statement carries the condition testing that
the amenity tag is not null, and no trailing OR or FROM glue from the
clause construction remains at the end of the statement. -/
theorem createSQL_one_amenity (sel : Option (List (String × String))) (table : String) :
    createSQL ⟨[table], sel, [("amenity", "not null")]⟩ = [amenityStmt sel table]
    ∧ (∃ pre, amenityStmt sel table
        = pre ++ ("tags->>" ++ sqc ++ "amenity" ++ sqc ++ " IS NOT NULL"))
    ∧ pyTakeRight 4 (amenityStmt sel table) ≠ " OR "
    ∧ pyTakeRight 6 (amenityStmt sel table) ≠ " FROM " := by
  refine ⟨?_, ⟨_, rfl⟩, ?_, ?_⟩
  · show [pyDropRight 4 (((selectFragment sel ++ (" FROM " ++ table ++ " ")) ++ " WHERE ")
      ++ ("tags->>" ++ sqc ++ "amenity" ++ sqc ++ " IS NOT NULL OR "))] = _
    rw [pyDropRight4_or]
    rfl
  · show pyTakeRight 4 (((selectFragment sel ++ (" FROM " ++ table ++ " ")) ++ " WHERE ")
      ++ ("tags->>" ++ sqc ++ "amenity" ++ sqc ++ " IS NOT NULL")) ≠ " OR "
    have hsplit : ("tags->>" ++ sqc ++ "amenity" ++ sqc ++ " IS NOT NULL" : String)
        = ("tags->>" ++ sqc ++ "amenity" ++ sqc ++ " IS NOT ") ++ "NULL" := by decide
    rw [hsplit, ← strAppendAssoc, pyTakeRight_append 4 _ "NULL" (by decide)]
    decide
  · show pyTakeRight 6 (((selectFragment sel ++ (" FROM " ++ table ++ " ")) ++ " WHERE ")
      ++ ("tags->>" ++ sqc ++ "amenity" ++ sqc ++ " IS NOT NULL")) ≠ " FROM "
    have hsplit : ("tags->>" ++ sqc ++ "amenity" ++ sqc ++ " IS NOT NULL" : String)
        = ("tags->>" ++ sqc ++ "amenity" ++ sqc ++ " IS NO") ++ "T NULL" := by decide
    rw [hsplit, ← strAppendAssoc, pyTakeRight_append 6 _ "T NULL" (by decide)]
    decide

/-- Claim C4, code-bug evidence: for a schema whose required tags carry
no not-null predicate, the built statement does not omit the WHERE
clause.  The construction appends the WHERE keyword unconditionally and
the closing four-character slice then truncates it, leaving a dangling
WH fragment after the FROM clause, where the claim expects the statement
to end cleanly after the FROM clause. -/
theorem createSQL_no_required_tags_truncated :
    createSQL ⟨["nodes"], none, [("building", "yes")]⟩
      = ["SELECT osm_id AS id, ST_AsEWKT(ST_Centroid(geom)), tags  FROM nodes  WH"]
    ∧ pyTakeRight 3 "SELECT osm_id AS id, ST_AsEWKT(ST_Centroid(geom)), tags  FROM nodes  WH"
        = " WH" := by
  exact ⟨by decide, by decide⟩

/-- Claim C5, code-bug evidence: the id property attached by the local
query path is the centroid EWKT text of the row (item 1), not the
osm_id value that the SELECT clause projects as id (item 0). -/
theorem rowToFeature_id_is_centroid_text :
    rowToFeature row0 = .ok feat0
    ∧ dictGetD feat0.properties "id" = some "SRID=4326;POINT(1 2)"
    ∧ dictGetD feat0.properties "id" ≠ some row0.osm_id := by
  exact ⟨rfl, by decide, by decide⟩

theorem pollLoop_no_success (seq : Nat → StatusResp) (h : ∀ n, (seq n).status ≠ "SUCCESS") :
    ∀ fuel i s, pollLoop seq fuel i s = none := by
  intro fuel
  induction fuel with
  | zero => intro i s; rfl
  | succ k ih =>
    intro i s
    show (if (seq i).status = "PENDING" then pollLoop seq k (i + 1) (s + 1)
      else if (seq i).status = "SUCCESS" then some (i + 1, s, seq i)
      else pollLoop seq k (i + 1) s) = none
    by_cases hp : (seq i).status = "PENDING"
    · rw [if_pos hp]; exact ih (i + 1) (s + 1)
    · rw [if_neg hp, if_neg (h i)]; exact ih (i + 1) s

/-- Claim C10: the poll loop terminates only when some status poll
returns SUCCESS — for every response sequence in which no response has
the SUCCESS status the loop returns none at every fuel value, and the
whole remote query does too — and on a status other than PENDING and
SUCCESS the loop re-polls immediately without incrementing the sleep
counter. -/
theorem pollLoop_termination_behavior :
    (∀ (seq : Nat → StatusResp), (∀ n, (seq n).status ≠ "SUCCESS") →
        ∀ fuel i s, pollLoop seq fuel i s = none)
    ∧ (∀ (seq : Nat → StatusResp) (fuel i s : Nat),
        (seq i).status ≠ "PENDING" → (seq i).status ≠ "SUCCESS" →
        pollLoop seq (fuel + 1) i s = pollLoop seq fuel (i + 1) s)
    ∧ (∀ (server : RemoteServer String) (q : String),
        (∀ n, (server.status (server.post q) n).status ≠ "SUCCESS") →
        ∀ fuel, queryRemote server q fuel = none) := by
  refine ⟨pollLoop_no_success, ?_, ?_⟩
  · intro seq fuel i s hp hs
    show (if (seq i).status = "PENDING" then pollLoop seq fuel (i + 1) (s + 1)
      else if (seq i).status = "SUCCESS" then some (i + 1, s, seq i)
      else pollLoop seq fuel (i + 1) s) = pollLoop seq fuel (i + 1) s
    rw [if_neg hp, if_neg hs]
  · intro server q h fuel
    simp only [queryRemote, pollLoop_no_success _ h fuel 0 0]

/-- Witness for C10 at a server that reports FAILED forever. -/
theorem pollLoop_termination_behavior_witness :
    pollLoop (fun _ => ⟨"FAILED", none⟩) 5 0 0 = none
    ∧ pollLoop (fun _ => ⟨"FAILED", none⟩) 1 0 0
        = pollLoop (fun _ => ⟨"FAILED", none⟩) 0 1 0
    ∧ queryRemote srvFailed "q" 7 = none := by
  refine ⟨pollLoop_termination_behavior.1 _
      (fun n => by show ("FAILED" : String) ≠ "SUCCESS"; decide) 5 0 0,
    pollLoop_termination_behavior.2.1 _ 0 0 0
      (by show ("FAILED" : String) ≠ "PENDING"; decide)
      (by show ("FAILED" : String) ≠ "SUCCESS"; decide),
    pollLoop_termination_behavior.2.2 srvFailed "q"
      (fun n => by show ("FAILED" : String) ≠ "SUCCESS"; decide) 7⟩

/-- Claim C1: against a server whose status endpoint answers PENDING
twice and then SUCCESS, the remote snapshot protocol polls the status
endpoint exactly three times, sleeps one unit after each of the two
PENDING responses, fetches the download url of the final result, and
returns exactly the raw byte content of the zip entry named
Export.geojson, at every sufficient fuel value. -/
theorem queryRemote_pending_pending_success {α : Type} (server : RemoteServer α) (q : α)
    (url : String) (bs : List Nat)
    (h0 : (server.status (server.post q) 0).status = "PENDING")
    (h1 : (server.status (server.post q) 1).status = "PENDING")
    (h2s : (server.status (server.post q) 2).status = "SUCCESS")
    (h2r : (server.status (server.post q) 2).result = some url)
    (hd : lookupEntry "Export.geojson" (server.download url) = some bs) :
    ∀ n : Nat, queryRemote server q (n + 3) = some (.ok ⟨3, 2, bs⟩) := by
  intro n
  have hne : (server.status (server.post q) 2).status ≠ "PENDING" := by
    rw [h2s]; decide
  have e1 : pollLoop (server.status (server.post q)) (n + 3) 0 0
      = pollLoop (server.status (server.post q)) (n + 2) 1 1 := by
    show (if (server.status (server.post q) 0).status = "PENDING" then
        pollLoop (server.status (server.post q)) (n + 2) 1 1
      else if (server.status (server.post q) 0).status = "SUCCESS" then
        some (1, 0, server.status (server.post q) 0)
      else pollLoop (server.status (server.post q)) (n + 2) 1 0)
      = pollLoop (server.status (server.post q)) (n + 2) 1 1
    rw [if_pos h0]
  have e2 : pollLoop (server.status (server.post q)) (n + 2) 1 1
      = pollLoop (server.status (server.post q)) (n + 1) 2 2 := by
    show (if (server.status (server.post q) 1).status = "PENDING" then
        pollLoop (server.status (server.post q)) (n + 1) 2 2
      else if (server.status (server.post q) 1).status = "SUCCESS" then
        some (2, 1, server.status (server.post q) 1)
      else pollLoop (server.status (server.post q)) (n + 1) 2 1)
      = pollLoop (server.status (server.post q)) (n + 1) 2 2
    rw [if_pos h1]
  have e3 : pollLoop (server.status (server.post q)) (n + 1) 2 2
      = some (3, 2, server.status (server.post q) 2) := by
    show (if (server.status (server.post q) 2).status = "PENDING" then
        pollLoop (server.status (server.post q)) n 3 3
      else if (server.status (server.post q) 2).status = "SUCCESS" then
        some (3, 2, server.status (server.post q) 2)
      else pollLoop (server.status (server.post q)) n 3 2)
      = some (3, 2, server.status (server.post q) 2)
    rw [if_neg hne, if_pos h2s]
  simp only [queryRemote, e1, e2, e3, h2r, hd]

/-- Witness for C1 at the concrete fixture server. -/
theorem queryRemote_pending_pending_success_witness :
    queryRemote srv1 "q" 3 = some (.ok ⟨3, 2, [1, 2, 3]⟩) :=
  queryRemote_pending_pending_success srv1 "q" "u" [1, 2, 3] rfl rfl rfl rfl rfl 0

theorem strNilAppend (s : String) : "" ++ s = s := by
  apply strExt
  simp [String.data_append]

theorem overpassFold_acc (ring : List Coord) : ∀ acc : String,
    ring.foldl (fun acc c => acc ++ (c.y ++ " " ++ c.x ++ " ")) acc
      = acc ++ ring.foldl (fun acc c => acc ++ (c.y ++ " " ++ c.x ++ " ")) "" := by
  induction ring with
  | nil =>
    intro acc
    apply strExt
    simp [String.data_append]
  | cons c rest ih =>
    intro acc
    simp only [List.foldl_cons]
    rw [ih (acc ++ (c.y ++ " " ++ c.x ++ " ")), ih ("" ++ (c.y ++ " " ++ c.x ++ " "))]
    apply strExt
    simp [String.data_append, List.append_assoc]

theorem overpassFold_join (ring : List Coord) (hne : ring ≠ []) :
    ring.foldl (fun acc c => acc ++ (c.y ++ " " ++ c.x ++ " ")) ""
      = latFirstJoin ring ++ " " := by
  induction ring with
  | nil => exact absurd rfl hne
  | cons c rest ih =>
    cases rest with
    | nil =>
      apply strExt
      simp [latFirstJoin, String.data_append, List.append_assoc]
    | cons d rest2 =>
      rw [List.foldl_cons,
        overpassFold_acc (d :: rest2) ("" ++ (c.y ++ " " ++ c.x ++ " ")),
        ih (by simp)]
      apply strExt
      simp [latFirstJoin, String.data_append, List.append_assoc]

theorem overpassPolyString_eq_latFirstJoin (ring : List Coord) :
    overpassPolyString ring = latFirstJoin ring := by
  cases ring with
  | nil => rfl
  | cons c rest =>
    rw [overpassPolyString, overpassFold_join (c :: rest) (by simp)]
    exact pyDropRight_append 1 _ " " (by decide)

/-- Claim C7, counterexample: for the ring with the single vertex of
longitude text 1 and latitude text 2, the flattened token string the
code embeds is 2 1 — latitude first — not the longitude-first 1 2 the
claim states. -/
theorem overpassQuery_lon_first_false :
    overpassPolyString [⟨"1", "2"⟩] = "2 1"
    ∧ overpassPolyString [⟨"1", "2"⟩] ≠ "1 2"
    ∧ overpassQuery [⟨"1", "2"⟩]
        = "[out:json];way[\"building\"](poly:\"2 1\");(._;>;);out body geom;"
    ∧ overpassQuery [⟨"1", "2"⟩]
        ≠ "[out:json];way[\"building\"](poly:\"1 2\");(._;>;);out body geom;" := by
  exact ⟨by decide, by decide, by decide, by decide⟩

/-- Claim C7 as amended: the boundary exterior ring is flattened into a
single token string with the latitude text before the longitude text in
each vertex pair, in ring vertex order, trailing separator trimmed, and
embedded in the Overpass QL building query. -/
theorem overpassQuery_flattens_ring (ring : List Coord) :
    overpassQuery ring
      = "[out:json];way[\"building\"](poly:\"" ++ latFirstJoin ring
          ++ "\");(._;>;);out body geom;"
    ∧ overpassPolyString ring = latFirstJoin ring := by
  refine ⟨?_, overpassPolyString_eq_latFirstJoin ring⟩
  rw [overpassQuery, overpassPolyString_eq_latFirstJoin ring]


theorem rowsToFeatures_nil : rowsToFeatures [] = .ok [] := rfl

theorem rowsToFeatures_cons (r : Row) (rs : List Row) :
    rowsToFeatures (r :: rs)
      = match rowToFeature r with
        | .error e => .error e
        | .ok f => consFeature f (rowsToFeatures rs) := rfl

theorem rowToFeature_point (r : Row) (f : RawFeature String) (h : rowToFeature r = .ok f) :
    f.geometry.isPoint = true := by
  unfold rowToFeature at h
  cases hg : pySplitSpace (pySlice16ToNeg1 r.centroidEwkt) with
  | nil => rw [hg] at h; cases h
  | cons g0 gs =>
    cases gs with
    | nil => rw [hg] at h; cases h
    | cons g1 rest =>
      rw [hg] at h
      cases h
      rfl

theorem rowsToFeatures_point : ∀ (rows : List Row) (fs : List (RawFeature String)),
    rowsToFeatures rows = .ok fs → ∀ f ∈ fs, f.geometry.isPoint = true := by
  intro rows
  induction rows with
  | nil =>
    intro fs h f hf
    rw [rowsToFeatures_nil] at h
    cases h
    cases hf
  | cons r rs ih =>
    intro fs h f hf
    rw [rowsToFeatures_cons] at h
    cases hr : rowToFeature r with
    | error e => rw [hr] at h; cases h
    | ok f0 =>
      rw [hr] at h
      cases hrs : rowsToFeatures rs with
      | error e => rw [hrs] at h; cases h
      | ok fs0 =>
        rw [hrs] at h
        cases h
        cases hf with
        | head => exact rowToFeature_point r _ hr
        | tail _ hmem => exact ih _ hrs _ hmem


theorem polygonCentroid_point (ring : List (ℚ × ℚ)) :
    (polygonCentroid ring).isPoint = true := by
  simp only [polygonCentroid]
  split <;> rfl

/-- Claim C8: every feature produced by the local query path and by the
Overpass way-to-feature adapter has a Point geometry — multi-vertex
source geometries are collapsed to a single centroid point before the
feature reaches the tag cleaner. -/
theorem features_always_points :
    (∀ (cursor : Option LocalDb) (query wkt : String) (fs : List (RawFeature String)),
        queryLocal cursor query wkt = .ok fs → ∀ f ∈ fs, f.geometry.isPoint = true)
    ∧ (∀ (ways : List OverpassWay), ∀ f ∈ overpassFeatures ways,
        f.geometry.isPoint = true) := by
  constructor
  · intro cursor query wkt fs h f hf
    cases cursor with
    | none => cases h
    | some db => exact rowsToFeatures_point (db (rewriteQuery query)) fs h f hf
  · intro ways f hf
    rcases List.mem_map.mp hf with ⟨w, hw, rfl⟩
    exact polygonCentroid_point (wayRing w)

/-- Witness for C8 at concrete local and Overpass fixtures. -/
theorem features_always_points_witness :
    feat0.geometry.isPoint = true ∧ (wayToFeature way0).geometry.isPoint = true := by
  constructor
  · exact features_always_points.1 (some db0) "q" "w" [feat0] rfl feat0 (by simp)
  · exact features_always_points.2 [way0] (wayToFeature way0) (by simp [overpassFeatures])

theorem runQueries_nil (db : LocalDb) (wkt : String)
    (acc : Option (List (RawFeature String))) : runQueries db wkt [] acc = .ok acc := rfl

theorem runQueries_cons (db : LocalDb) (wkt : String) (q : String) (rest : List String)
    (acc : Option (List (RawFeature String))) :
    runQueries db wkt (q :: rest) acc
      = match queryLocal (some db) q wkt with
        | .error e => .error e
        | .ok fs => runQueries db wkt rest (some fs) := rfl

theorem runQueries_last (db : LocalDb) (wkt : String) :
    ∀ (qs : List String) (acc : Option (List (RawFeature String))) (lastQ : String)
      (fs : List (RawFeature String)),
      qs.getLast? = some lastQ →
      (∀ q ∈ qs, ∃ fs', queryLocal (some db) q wkt = .ok fs') →
      queryLocal (some db) lastQ wkt = .ok fs →
      runQueries db wkt qs acc = .ok (some fs) := by
  intro qs
  induction qs with
  | nil =>
    intro acc lastQ fs hlast
    cases hlast
  | cons q rest ih =>
    intro acc lastQ fs hlast hall hlq
    cases rest with
    | nil =>
      have hq : lastQ = q := by
        simp only [List.getLast?_singleton, Option.some.injEq] at hlast
        exact hlast.symm
      subst hq
      rw [runQueries_cons, hlq]
      rfl
    | cons r rs =>
      rw [List.getLast?_cons_cons] at hlast
      rcases hall q (by simp) with ⟨fs', h'⟩
      rw [runQueries_cons, h']
      exact ih (some fs') lastQ fs hlast (fun q' hq' => hall q' (by simp [hq'])) hlq

/-- Claim C9: with an open database session and a schema generating more
than one SQL statement, getFeatures builds its collection from the
result of the last generated statement only; results of every earlier
statement are discarded. -/
theorem getFeatures_uses_last_statement {β : Type} (db : LocalDb)
    (server : RemoteServer (FilterDoc β)) (schema : Schema) (poly : β) (wkt : String)
    (fuel : Nat) (lastQ : String) (fs : List (RawFeature String))
    (hlast : (createSQL schema).getLast? = some lastQ)
    (hall : ∀ q ∈ createSQL schema, ∃ fs', queryLocal (some db) q wkt = .ok fs')
    (hlq : queryLocal (some db) lastQ wkt = .ok fs) :
    getFeatures (some db) server schema poly wkt fuel = some (.ok (.features fs)) := by
  have hrun : runQueries db wkt (createSQL schema) none = .ok (some fs) :=
    runQueries_last db wkt (createSQL schema) none lastQ fs hlast hall hlq
  show (match runQueries db wkt (createSQL schema) none with
    | Except.error e => some (Except.error e)
    | Except.ok none => some (Except.error PyErr.nameError)
    | Except.ok (some fs2) => some (Except.ok (Collection.features fs2))) = _
  rw [hrun]

/-- Witness for C9 at a two-table schema over a constant session. -/
theorem getFeatures_uses_last_statement_witness :
    getFeatures (some db0) srvD schema2 "B" "w" 0 = some (.ok (.features [feat0])) :=
  getFeatures_uses_last_statement db0 srvD schema2 "B" "w" 0
    (sqlForTable schema2 "ways_poly") [feat0] rfl
    (fun q hq => ⟨[feat0], rfl⟩) rfl

/-- Claim C6, counterexample: with no open database session the local
query path fails with AttributeError (the cursor is None), not with
ConnectionError as the claim states. -/
theorem queryLocal_no_session_error :
    queryLocal none "SELECT osm_id FROM nodes" "POLYGON" = .error .attributeError
    ∧ (Except.error PyErr.attributeError : Except PyErr (List (RawFeature String)))
        ≠ .error .connectionError := by
  refine ⟨rfl, fun h => ?_⟩
  injection h with h2
  cases h2

/-- Claim C6 as amended: whenever no open database session exists,
getFeatures never executes local SQL and instead takes the remote
branch, building the JSON filter document and running the remote
submit, poll and download protocol on it; the local query path itself,
if invoked without a session, fails with AttributeError. -/
theorem getFeatures_no_session_falls_back {β : Type} (server : RemoteServer (FilterDoc β))
    (schema : Schema) (poly : β) (wkt : String) (fuel : Nat) :
    getFeatures none server schema poly wkt fuel = remoteExtract server schema poly fuel
    ∧ remoteExtract server schema poly fuel
        = Option.map (Except.map (fun tr => Collection.rawBytes tr.bytes))
            (queryRemote server (createJson schema poly) fuel)
    ∧ (∀ q w, queryLocal none q w = .error .attributeError) := by
  refine ⟨rfl, ?_, fun q w => rfl⟩
  unfold remoteExtract
  cases hq : queryRemote server (createJson schema poly) fuel with
  | none => rfl
  | some r =>
    cases r with
    | error e => rfl
    | ok tr => rfl
